import Mathlib

/-
Verification of the zippybee-nng client-side messaging endpoint:
the reconnection state machine, retry policy, failure classifier,
disposable handle surface and synchronous RPC path.

The repository files ship the documented constants and the public API
(recv_message, is_connected, is_disposed, dispose, send); the compiled
core that implements them is not among the source files, so the model
below is built from the specification text, faithful to its words
(sections 3 to 7 of the spec and the documented retry constants
MAX_RETRIES = 3, RETRY_DELAY = 1000 * retry_count).
-/

namespace Nng

/-- Modelled from the spec: transport failures reported by the missing
Rust core, as listed in the Failure Classifier section (reset, refused,
unreachable, broken pipe, timeout, explicit local close, invalid
address, unrecoverable protocol error). -/
inductive Failure
  | reset
  | refused
  | unreachable
  | brokenPipe
  | timedOut
  | localClose
  | invalidAddress
  | protocolError
deriving DecidableEq, Repr

/-- Modelled from the spec: the three failure classes of the Failure
Classifier. -/
inductive FailureClass
  | retryable
  | timeout
  | fatal
deriving DecidableEq, Repr

/-- Modelled from the spec: the Failure Classifier maps a raw transport
failure into Retryable (reset, refused, unreachable, broken pipe),
Timeout, or Fatal (explicit local disposal, invalid address,
unrecoverable protocol error); the classifying code is not among the
source files. -/
def classify : Failure → FailureClass
  | .reset => .retryable
  | .refused => .retryable
  | .unreachable => .retryable
  | .brokenPipe => .retryable
  | .timedOut => .timeout
  | .localClose => .fatal
  | .invalidAddress => .fatal
  | .protocolError => .fatal

/-- Modelled from the spec: the ConnectionState enumeration
(Connecting, Connected, Disconnected, Disposed). -/
inductive ConnectionState
  | connecting
  | connected
  | disconnected
  | disposed
deriving DecidableEq, Repr

/-- Modelled from the spec: the semantic attributes of a
DisposableHandle that the claims mention (state, the monotonic disposed
flag, retryCount); address and timeouts are immutable configuration
with no bearing on the transitions. -/
structure Machine where
  st : ConnectionState
  disposed : Bool
  retryCount : Nat
deriving DecidableEq, Repr

/-- Modelled from the spec: the documented retry maximum,
MAX_RETRIES = 3. -/
def MAX_RETRIES : Nat := 3

/-- Modelled from the spec: the documented backoff base of one second,
RETRY_DELAY = 1000 * retry_count. -/
def RETRY_DELAY_BASE : Nat := 1000

/-- Modelled from the spec: the Retry Policy authorizes another attempt
exactly when the count of failed attempts in this episode is below the
maximum. -/
def retryAllowed (retryCount : Nat) : Bool := retryCount < MAX_RETRIES

/-- Modelled from the spec: the increasing backoff delay before attempt
number n, RETRY_DELAY = 1000 * retry_count (attempt 1 waits one unit,
attempt 2 two units, attempt 3 three units). -/
def retryDelay (attempt : Nat) : Nat := RETRY_DELAY_BASE * attempt

/-- Modelled from the spec: the error taxonomy surfaced to the observer
callback by the Receive Loop (ConnectFailed, TimedOut, ConnectionLost,
ReconnectExhausted). -/
inductive ErrKind
  | connectFailed (f : Failure)
  | timedOut
  | connectionLost (f : Failure)
  | reconnectExhausted
deriving DecidableEq, Repr

/-- Modelled from the spec: one observer callback invocation, either a
message delivery (null, payload) or an error notification
(error, null); payloads are abstracted to natural numbers. -/
inductive ObsEvent
  | msg (payload : Nat)
  | err (e : ErrKind)
deriving DecidableEq, Repr

/-- Modelled from the spec: one event consumed by the Receive Loop: the
outcome of the pending timed receive, the outcome of a pending connect
attempt, or an external disposal request interleaved with the loop. -/
inductive Input
  | recvOk (payload : Nat)
  | recvErr (f : Failure)
  | connectOk
  | connectErr (f : Failure)
  | dispose
deriving DecidableEq, Repr

/-- Modelled from the spec: the result of one loop iteration: the next
machine state, the observer notifications delivered during it, and the
backoff delay slept before a reconnect attempt, when one was slept. -/
structure StepResult where
  m : Machine
  outs : List ObsEvent
  delay : Option Nat
deriving DecidableEq, Repr

/-- Modelled from the spec: the disposal transition: sets the monotonic
disposed flag and forces state to Disposed. -/
def disposeMachine (m : Machine) : Machine :=
  { m with st := ConnectionState.disposed, disposed := true }

/-- Modelled from the spec: one iteration of the Connection State
Machine driven by the Receive Loop. Once disposal has been requested
every event is discarded and nothing reaches the observer (disposal
wins races; redundant dispose is a no-op). While connected, a received
message is delivered, a timeout is surfaced distinctly and the loop
continues, a retryable failure moves to Disconnected and opens a
reconnection episode, a fatal failure moves to Disposed. During an
episode each authorized attempt sleeps RETRY_DELAY_BASE times the
attempt number; a success returns to Connected and resets retryCount
to 0; a failure increments retryCount, and when the budget is consumed
the machine moves to Disposed and surfaces ReconnectExhausted. -/
def step (m : Machine) (i : Input) : StepResult :=
  if m.disposed then
    { m := m, outs := [], delay := none }
  else
    match i with
    | .dispose => { m := disposeMachine m, outs := [], delay := none }
    | .recvOk p =>
      match m.st with
      | .connected => { m := m, outs := [ObsEvent.msg p], delay := none }
      | _ => { m := m, outs := [], delay := none }
    | .recvErr f =>
      match m.st with
      | .connected =>
        match classify f with
        | .timeout => { m := m, outs := [ObsEvent.err ErrKind.timedOut], delay := none }
        | .retryable =>
          { m := { m with st := ConnectionState.disconnected }
            outs := [ObsEvent.err (ErrKind.connectionLost f)], delay := none }
        | .fatal =>
          { m := disposeMachine m
            outs := [ObsEvent.err (ErrKind.connectionLost f)], delay := none }
      | _ => { m := m, outs := [], delay := none }
    | .connectOk =>
      match m.st with
      | .connecting =>
        { m := { m with st := ConnectionState.connected, retryCount := 0 }
          outs := [], delay := none }
      | .disconnected =>
        if retryAllowed m.retryCount then
          { m := { m with st := ConnectionState.connected, retryCount := 0 }
            outs := [], delay := some (retryDelay (m.retryCount + 1)) }
        else
          { m := disposeMachine m
            outs := [ObsEvent.err ErrKind.reconnectExhausted], delay := none }
      | _ => { m := m, outs := [], delay := none }
    | .connectErr f =>
      match m.st with
      | .connecting =>
        match classify f with
        | .fatal =>
          { m := disposeMachine m
            outs := [ObsEvent.err (ErrKind.connectFailed f)], delay := none }
        | _ =>
          { m := { m with st := ConnectionState.disconnected }
            outs := [ObsEvent.err (ErrKind.connectFailed f)], delay := none }
      | .disconnected =>
        if retryAllowed m.retryCount then
          match classify f with
          | .fatal =>
            { m := disposeMachine m
              outs := [ObsEvent.err (ErrKind.connectFailed f)]
              delay := some (retryDelay (m.retryCount + 1)) }
          | _ =>
            if retryAllowed (m.retryCount + 1) then
              { m := { m with retryCount := m.retryCount + 1 }
                outs := [ObsEvent.err (ErrKind.connectFailed f)]
                delay := some (retryDelay (m.retryCount + 1)) }
            else
              { m := disposeMachine { m with retryCount := m.retryCount + 1 }
                outs := [ObsEvent.err (ErrKind.connectFailed f),
                         ObsEvent.err ErrKind.reconnectExhausted]
                delay := some (retryDelay (m.retryCount + 1)) }
        else
          { m := disposeMachine m
            outs := [ObsEvent.err ErrKind.reconnectExhausted], delay := none }
      | _ => { m := m, outs := [], delay := none }

/-- Modelled from the spec: the handle returned by startReceiving
(recv_message): the initial attempt is in progress on a background
context, the handle is immediately queryable, not yet connected, not
disposed. -/
def startReceiving : Machine :=
  { st := ConnectionState.connecting, disposed := false, retryCount := 0 }

/-- Modelled from the spec: is_connected returns true iff the current
state is Connected; a total function of the atomically readable
state. -/
def is_connected (m : Machine) : Bool := m.st == ConnectionState.connected

/-- Modelled from the spec: is_disposed returns the monotonic disposed
flag. -/
def is_disposed (m : Machine) : Bool := m.disposed

/-- Modelled from the spec: the machine after the Receive Loop has
consumed a list of events. -/
def runM (m : Machine) : List Input → Machine
  | [] => m
  | i :: t => runM (step m i).m t

/-- Modelled from the spec: all observer callback invocations produced
while consuming a list of events. -/
def runEvents (m : Machine) : List Input → List ObsEvent
  | [] => []
  | i :: t => (step m i).outs ++ runEvents (step m i).m t

/-- Modelled from the spec: the backoff delays slept while consuming a
list of events, in order. -/
def runDelays (m : Machine) : List Input → List Nat
  | [] => []
  | i :: t =>
    (match (step m i).delay with | some d => [d] | none => []) ++ runDelays (step m i).m t

/-- Modelled from the spec: a machine is reachable when some event list
leads the handle returned by startReceiving to it. -/
def Reachable (m : Machine) : Prop := ∃ t : List Input, runM startReceiving t = m

/-- Modelled from the spec: the number of ReconnectExhausted
notifications in a list of observer events. -/
def countExhausted (l : List ObsEvent) : Nat :=
  l.countP (fun e => e == ObsEvent.err ErrKind.reconnectExhausted)

/-- Modelled from the spec: the event list of Scenario A after an
established connection breaks: a retryable receive failure followed by
three failed reconnect attempts. -/
def exhaustScript : List Input :=
  [Input.recvErr Failure.reset, Input.connectErr Failure.refused,
   Input.connectErr Failure.refused, Input.connectErr Failure.refused]

/-- Modelled from the spec: the errors the synchronous RPC path fails
with: connect, send or receive failed, each carrying the underlying
classified reason. -/
inductive RpcError
  | connectFailedR (f : Failure)
  | sendFailed (f : Failure)
  | recvFailed (f : Failure)
deriving DecidableEq, Repr

/-- Modelled from the spec: the synchronous RPC path (Socket send):
open a connection, send the request within the send timeout, block for
a reply within the receive timeout. The transport environment is given
as the successive outcomes it would return for each connect, send and
receive the caller performs; the path performs a single attempt, so it
consults only the first outcome of each list, and an exhausted list
stands for an operation that times out. -/
def sendRequest (connects sends : List (Option Failure))
    (recvs : List (Except Failure Nat)) : Except RpcError Nat :=
  match connects with
  | [] => Except.error (RpcError.connectFailedR Failure.timedOut)
  | c :: _ =>
    match c with
    | some f => Except.error (RpcError.connectFailedR f)
    | none =>
      match sends with
      | [] => Except.error (RpcError.sendFailed Failure.timedOut)
      | s :: _ =>
        match s with
        | some f => Except.error (RpcError.sendFailed f)
        | none =>
          match recvs with
          | [] => Except.error (RpcError.recvFailed Failure.timedOut)
          | r :: _ =>
            match r with
            | Except.error f => Except.error (RpcError.recvFailed f)
            | Except.ok v => Except.ok v

/-- Modelled from the spec: invariant I1 in its inductive form: the
monotonic disposed flag forces the state to Disposed. -/
def Inv (m : Machine) : Prop :=
  m.disposed = true → m.st = ConnectionState.disposed

lemma step_disposed (m : Machine) (i : Input) (h : m.disposed = true) :
    step m i = { m := m, outs := [], delay := none } := by
  simp [step, h]

lemma runM_disposed (m : Machine) (t : List Input) (h : m.disposed = true) :
    runM m t = m := by
  induction t with
  | nil => rfl
  | cons i t ih => simp only [runM, step_disposed m i h]; exact ih

lemma runEvents_disposed (m : Machine) (t : List Input) (h : m.disposed = true) :
    runEvents m t = [] := by
  induction t with
  | nil => rfl
  | cons i t ih => simp only [runEvents, step_disposed m i h]; exact ih

lemma inv_step (m : Machine) (i : Input) (h : Inv m) : Inv (step m i).m := by
  unfold step Inv disposeMachine at *
  repeat' split
  all_goals simp_all

lemma inv_runM (m : Machine) (t : List Input) (h : Inv m) : Inv (runM m t) := by
  induction t generalizing m with
  | nil => exact h
  | cons i t ih => exact ih _ (inv_step m i h)

lemma inv_start : Inv startReceiving := by
  intro h
  simp [startReceiving] at h

lemma reachable_inv (m : Machine) (h : Reachable m) : Inv m := by
  obtain ⟨t, ht⟩ := h
  subst ht
  exact inv_runM startReceiving t inv_start

lemma inv_not_connected (m : Machine) (h : Inv m) (hd : m.disposed = true) :
    is_connected m = false := by
  simp [is_connected, h hd]

lemma countExhausted_append (a b : List ObsEvent) :
    countExhausted (a ++ b) = countExhausted a + countExhausted b := by
  simp [countExhausted, List.countP_append]

lemma step_outs_exhausted (m : Machine) (i : Input) :
    countExhausted (step m i).outs = 0
    ∨ (countExhausted (step m i).outs = 1 ∧ (step m i).m.disposed = true) := by
  unfold step disposeMachine
  repeat' split
  all_goals simp [countExhausted, List.countP_cons]

lemma countExhausted_runEvents_le_one (m : Machine) (t : List Input) :
    countExhausted (runEvents m t) ≤ 1 := by
  induction t generalizing m with
  | nil => simp [runEvents, countExhausted]
  | cons i t ih =>
    simp only [runEvents, countExhausted_append]
    rcases step_outs_exhausted m i with h0 | ⟨h1, hd⟩
    · rw [h0]
      simpa using ih (step m i).m
    · rw [h1, runEvents_disposed _ t hd]
      simp [countExhausted]

lemma step_not_connectOk (m : Machine) (i : Input) (hi : i ≠ Input.connectOk)
    (h : is_connected m = false) : is_connected (step m i).m = false := by
  unfold step disposeMachine is_connected at *
  repeat' split
  all_goals simp_all

lemma runM_not_connectOk (m : Machine) (t : List Input) (ht : Input.connectOk ∉ t)
    (h : is_connected m = false) : is_connected (runM m t) = false := by
  induction t generalizing m with
  | nil => exact h
  | cons i t ih =>
    simp only [runM]
    have hi : i ≠ Input.connectOk := by
      intro e
      exact ht (e ▸ List.mem_cons_self i t)
    exact ih _ (fun hx => ht (List.mem_cons_of_mem i hx)) (step_not_connectOk m i hi h)

lemma runM_append (m : Machine) (p q : List Input) :
    runM m (p ++ q) = runM (runM m p) q := by
  induction p generalizing m with
  | nil => rfl
  | cons i p ih =>
    simp only [List.cons_append, runM]
    exact ih _

lemma dispose_step_disposed (m : Machine) :
    (step m Input.dispose).m.disposed = true := by
  unfold step disposeMachine
  repeat' split
  all_goals simp_all

/-- C1: for every handle returned by startReceiving, once dispose has
resolved, is_connected returns false and is_disposed returns true, they
keep those values on every subsequent event list, and any further
dispose is a no-op that neither fails nor changes anything. -/
theorem dispose_idempotent_permanent (m : Machine) (t : List Input)
    (h : Reachable m) :
    is_disposed (runM m [Input.dispose]) = true
    ∧ is_connected (runM m [Input.dispose]) = false
    ∧ is_disposed (runM (runM m [Input.dispose]) t) = true
    ∧ is_connected (runM (runM m [Input.dispose]) t) = false
    ∧ step (runM m [Input.dispose]) Input.dispose
        = { m := runM m [Input.dispose], outs := [], delay := none } := by
  have hInv : Inv m := reachable_inv m h
  have he : runM m [Input.dispose] = (step m Input.dispose).m := rfl
  have hd1 : (runM m [Input.dispose]).disposed = true := by
    rw [he]
    exact dispose_step_disposed m
  have hInv1 : Inv (runM m [Input.dispose]) := by
    rw [he]
    exact inv_step m Input.dispose hInv
  have hrt : runM (runM m [Input.dispose]) t = runM m [Input.dispose] :=
    runM_disposed _ t hd1
  refine ⟨hd1, inv_not_connected _ hInv1 hd1, ?_, ?_, step_disposed _ Input.dispose hd1⟩
  · rw [hrt]
    exact hd1
  · rw [hrt]
    exact inv_not_connected _ hInv1 hd1

/-- Witness for C1 at the freshly created handle, with two further
events (a second dispose and an in-flight message) afterwards. -/
theorem dispose_idempotent_permanent_w :
    is_disposed (runM startReceiving [Input.dispose]) = true
    ∧ is_connected (runM startReceiving [Input.dispose]) = false
    ∧ is_disposed (runM (runM startReceiving [Input.dispose])
        [Input.dispose, Input.recvOk 7]) = true
    ∧ is_connected (runM (runM startReceiving [Input.dispose])
        [Input.dispose, Input.recvOk 7]) = false
    ∧ step (runM startReceiving [Input.dispose]) Input.dispose
        = { m := runM startReceiving [Input.dispose], outs := [], delay := none } :=
  dispose_idempotent_permanent startReceiving [Input.dispose, Input.recvOk 7] ⟨[], rfl⟩

/-- C2: the Retry Policy authorizes a retry exactly when retryCount is
below the fixed maximum of 3, the delay before attempt n is the base
times n, and on the Scenario A episode the three attempts sleep 1000,
2000 and 3000 milliseconds in order. -/
theorem retry_policy_increasing_backoff (c n : Nat) :
    MAX_RETRIES = 3
    ∧ RETRY_DELAY_BASE = 1000
    ∧ (retryAllowed c = true ↔ c < 3)
    ∧ retryDelay n = RETRY_DELAY_BASE * n
    ∧ runDelays (runM startReceiving [Input.connectOk]) exhaustScript
        = [1000, 2000, 3000] := by
  refine ⟨rfl, rfl, ?_, rfl, by decide⟩
  simp [retryAllowed, MAX_RETRIES]

/-- C3: for every reconnection episode that consumes the whole retry
budget without a successful connection, that is, for every live
disconnected machine whose next authorized attempt exhausts the budget
and fails with any non-fatal failure, the step delivers exactly one
ReconnectExhausted notification and moves the machine to Disposed; the
state never changes again and nothing further is delivered, and in any
run whatsoever the observer receives at most one ReconnectExhausted. -/
theorem exhaustion_disposed_exactly_once (m : Machine) (t t2 : List Input)
    (f : Failure) (hd : m.disposed = false)
    (hs : m.st = ConnectionState.disconnected)
    (ha : retryAllowed m.retryCount = true)
    (hb : retryAllowed (m.retryCount + 1) = false)
    (hf : classify f ≠ FailureClass.fatal) :
    countExhausted (step m (Input.connectErr f)).outs = 1
    ∧ (step m (Input.connectErr f)).m.st = ConnectionState.disposed
    ∧ (step m (Input.connectErr f)).m.disposed = true
    ∧ runEvents (step m (Input.connectErr f)).m t2 = []
    ∧ runM (step m (Input.connectErr f)).m t2 = (step m (Input.connectErr f)).m
    ∧ countExhausted (runEvents m t) ≤ 1 := by
  have hstep : step m (Input.connectErr f)
      = { m := disposeMachine { m with retryCount := m.retryCount + 1 }
          outs := [ObsEvent.err (ErrKind.connectFailed f),
                   ObsEvent.err ErrKind.reconnectExhausted]
          delay := some (retryDelay (m.retryCount + 1)) } := by
    rcases hcf : classify f with _ | _ | _
    · simp [step, hd, hs, ha, hb, hcf]
    · simp [step, hd, hs, ha, hb, hcf]
    · exact absurd hcf hf
  rw [hstep]
  refine ⟨?_, rfl, rfl, runEvents_disposed _ t2 rfl, runM_disposed _ t2 rfl,
    countExhausted_runEvents_le_one m t⟩
  simp [countExhausted, List.countP_cons]

/-- Witness for C3 at the third failed attempt of an episode
(retryCount 2, budget 3), with a pending message event afterwards. -/
theorem exhaustion_disposed_exactly_once_w :
    countExhausted (step (Machine.mk ConnectionState.disconnected false 2)
        (Input.connectErr Failure.refused)).outs = 1
    ∧ (step (Machine.mk ConnectionState.disconnected false 2)
        (Input.connectErr Failure.refused)).m.st = ConnectionState.disposed
    ∧ (step (Machine.mk ConnectionState.disconnected false 2)
        (Input.connectErr Failure.refused)).m.disposed = true
    ∧ runEvents (step (Machine.mk ConnectionState.disconnected false 2)
        (Input.connectErr Failure.refused)).m [Input.recvOk 9] = []
    ∧ runM (step (Machine.mk ConnectionState.disconnected false 2)
        (Input.connectErr Failure.refused)).m [Input.recvOk 9]
        = (step (Machine.mk ConnectionState.disconnected false 2)
            (Input.connectErr Failure.refused)).m
    ∧ countExhausted (runEvents (Machine.mk ConnectionState.disconnected false 2)
        exhaustScript) ≤ 1 :=
  exhaustion_disposed_exactly_once (Machine.mk ConnectionState.disconnected false 2)
    exhaustScript [Input.recvOk 9] Failure.refused rfl rfl (by decide) (by decide)
    (by decide)

/-- C4: once dispose has been invoked no observer callback invocation
occurs, message or error alike: every later event, including a message
already in flight at disposal time, is discarded. -/
theorem no_delivery_after_dispose (m : Machine) (t : List Input)
    (h : is_disposed m = true) :
    runEvents m t = []
    ∧ runEvents (runM startReceiving [Input.connectOk, Input.dispose])
        [Input.recvOk 5] = [] :=
  ⟨runEvents_disposed m t h, by decide⟩

/-- Witness for C4 at the handle disposed right after a successful
connection, with an in-flight message pending. -/
theorem no_delivery_after_dispose_w :
    runEvents (runM startReceiving [Input.connectOk, Input.dispose])
        [Input.recvOk 5] = []
    ∧ runEvents (runM startReceiving [Input.connectOk, Input.dispose])
        [Input.recvOk 5] = [] :=
  no_delivery_after_dispose (runM startReceiving [Input.connectOk, Input.dispose])
    [Input.recvOk 5] (by decide)

/-- C5: on every reachable machine the disposed flag is monotonic:
disposed implies state Disposed, which implies is_connected is false,
and every later event list keeps disposed true, the state Disposed and
is_connected false. -/
theorem disposed_monotonic_invariant (m : Machine) (t : List Input)
    (h : Reachable m) (hd : is_disposed m = true) :
    m.st = ConnectionState.disposed
    ∧ is_connected m = false
    ∧ is_disposed (runM m t) = true
    ∧ (runM m t).st = ConnectionState.disposed
    ∧ is_connected (runM m t) = false := by
  have hInv : Inv m := reachable_inv m h
  have hrt : runM m t = m := runM_disposed m t hd
  refine ⟨hInv hd, inv_not_connected m hInv hd, ?_, ?_, ?_⟩
  · rw [hrt]
    exact hd
  · rw [hrt]
    exact hInv hd
  · rw [hrt]
    exact inv_not_connected m hInv hd

/-- Witness for C5 at the handle disposed right after creation, with a
later successful connect event that must change nothing. -/
theorem disposed_monotonic_invariant_w :
    (runM startReceiving [Input.dispose]).st = ConnectionState.disposed
    ∧ is_connected (runM startReceiving [Input.dispose]) = false
    ∧ is_disposed (runM (runM startReceiving [Input.dispose]) [Input.connectOk]) = true
    ∧ (runM (runM startReceiving [Input.dispose]) [Input.connectOk]).st
        = ConnectionState.disposed
    ∧ is_connected (runM (runM startReceiving [Input.dispose]) [Input.connectOk]) = false :=
  disposed_monotonic_invariant (runM startReceiving [Input.dispose])
    [Input.connectOk] ⟨[Input.dispose], rfl⟩ (by decide)

/-- C6: is_connected returns true exactly when the current
ConnectionState is Connected; it is a total function of the atomically
readable state, so it never blocks and never throws. -/
theorem is_connected_iff_connected (m : Machine) :
    is_connected m = true ↔ m.st = ConnectionState.connected := by
  simp [is_connected]

/-- C7: within one reconnection episode a failed attempt strictly
increases retryCount by one while the budget lasts, and every
successful connection, initial or reconnect, resets retryCount to 0
regardless of its prior value. -/
theorem retryCount_increases_and_resets (m m2 m3 : Machine) (f : Failure)
    (hd : m.disposed = false) (hs : m.st = ConnectionState.disconnected)
    (ha : retryAllowed m.retryCount = true) (hf : classify f ≠ FailureClass.fatal)
    (hd2 : m2.disposed = false) (hs2 : m2.st = ConnectionState.disconnected)
    (ha2 : retryAllowed m2.retryCount = true)
    (hd3 : m3.disposed = false) (hs3 : m3.st = ConnectionState.connecting) :
    (step m (Input.connectErr f)).m.retryCount = m.retryCount + 1
    ∧ (step m2 Input.connectOk).m.retryCount = 0
    ∧ (step m2 Input.connectOk).m.st = ConnectionState.connected
    ∧ (step m3 Input.connectOk).m.retryCount = 0
    ∧ (step m3 Input.connectOk).m.st = ConnectionState.connected := by
  refine ⟨?_, ?_, ?_, ?_, ?_⟩
  all_goals
    unfold step disposeMachine
    repeat' split
  all_goals simp_all

/-- Witness for C7: a failed second attempt moves retryCount from 1 to
2; successful connects from counts 2 and 5 reset it to 0. -/
theorem retryCount_increases_and_resets_w :
    (step (Machine.mk ConnectionState.disconnected false 1)
        (Input.connectErr Failure.reset)).m.retryCount
      = (Machine.mk ConnectionState.disconnected false 1).retryCount + 1
    ∧ (step (Machine.mk ConnectionState.disconnected false 2) Input.connectOk).m.retryCount = 0
    ∧ (step (Machine.mk ConnectionState.disconnected false 2) Input.connectOk).m.st
        = ConnectionState.connected
    ∧ (step (Machine.mk ConnectionState.connecting false 5) Input.connectOk).m.retryCount = 0
    ∧ (step (Machine.mk ConnectionState.connecting false 5) Input.connectOk).m.st
        = ConnectionState.connected :=
  retryCount_increases_and_resets
    (Machine.mk ConnectionState.disconnected false 1)
    (Machine.mk ConnectionState.disconnected false 2)
    (Machine.mk ConnectionState.connecting false 5)
    Failure.reset rfl rfl (by decide) (by decide) rfl rfl (by decide) rfl rfl

/-- C8: the synchronous RPC path fails directly with a send-failed or
recv-failed error carrying the classified reason on a timeout or
transport error, and performs a single connect, send and receive
attempt per call: its result depends only on the first outcome of each
transport primitive, never on a second one. -/
theorem rpc_fails_directly_no_retry (f : Failure) (v : Nat)
    (c s : Option Failure) (r : Except Failure Nat)
    (cs cs2 ss ss2 : List (Option Failure)) (rs rs2 : List (Except Failure Nat)) :
    sendRequest (c :: cs) (s :: ss) (r :: rs) = sendRequest (c :: cs2) (s :: ss2) (r :: rs2)
    ∧ sendRequest (some f :: cs) (s :: ss) (r :: rs)
        = Except.error (RpcError.connectFailedR f)
    ∧ sendRequest (none :: cs) (some f :: ss) (r :: rs)
        = Except.error (RpcError.sendFailed f)
    ∧ sendRequest (none :: cs) (none :: ss) (Except.error f :: rs)
        = Except.error (RpcError.recvFailed f)
    ∧ sendRequest (none :: cs) (none :: ss) (Except.ok v :: rs) = Except.ok v := by
  refine ⟨?_, rfl, rfl, rfl, rfl⟩
  cases c <;> cases s <;> cases r <;> rfl

/-- C9: a closure initiated by the local disposal operation is
classified Fatal, never Retryable; handling it from the connected state
moves the machine to Disposed with no backoff delay and no retry, and
nothing is delivered afterwards. -/
theorem local_close_fatal_no_retry (m : Machine) (t : List Input)
    (hd : m.disposed = false) (hs : m.st = ConnectionState.connected) :
    classify Failure.localClose = FailureClass.fatal
    ∧ classify Failure.localClose ≠ FailureClass.retryable
    ∧ (step m (Input.recvErr Failure.localClose)).m.st = ConnectionState.disposed
    ∧ (step m (Input.recvErr Failure.localClose)).m.disposed = true
    ∧ (step m (Input.recvErr Failure.localClose)).delay = none
    ∧ runEvents (step m (Input.recvErr Failure.localClose)).m t = [] := by
  have hstep :
      step m (Input.recvErr Failure.localClose)
        = { m := disposeMachine m
            outs := [ObsEvent.err (ErrKind.connectionLost Failure.localClose)]
            delay := none } := by
    simp [step, hd, hs, classify]
  refine ⟨rfl, by decide, ?_, ?_, ?_, ?_⟩
  · rw [hstep]
    rfl
  · rw [hstep]
    rfl
  · rw [hstep]
  · rw [hstep]
    exact runEvents_disposed _ t rfl

/-- Witness for C9 at a connected handle with a pending message event
afterwards. -/
theorem local_close_fatal_no_retry_w :
    classify Failure.localClose = FailureClass.fatal
    ∧ classify Failure.localClose ≠ FailureClass.retryable
    ∧ (step (Machine.mk ConnectionState.connected false 0)
        (Input.recvErr Failure.localClose)).m.st = ConnectionState.disposed
    ∧ (step (Machine.mk ConnectionState.connected false 0)
        (Input.recvErr Failure.localClose)).m.disposed = true
    ∧ (step (Machine.mk ConnectionState.connected false 0)
        (Input.recvErr Failure.localClose)).delay = none
    ∧ runEvents (step (Machine.mk ConnectionState.connected false 0)
        (Input.recvErr Failure.localClose)).m [Input.recvOk 3] = [] :=
  local_close_fatal_no_retry (Machine.mk ConnectionState.connected false 0)
    [Input.recvOk 3] rfl rfl

/-- C10: the handle returned by startReceiving begins not connected and
not disposed; it stays not connected on any event list containing no
successful connect outcome; and at any point from which a run still
reaches the connected state, the handle is not disposed. -/
theorem start_unconnected_undisposed (p q r : List Input)
    (hr : Input.connectOk ∉ r)
    (hc : is_connected (runM startReceiving (p ++ q)) = true) :
    is_connected startReceiving = false
    ∧ is_disposed startReceiving = false
    ∧ is_connected (runM startReceiving r) = false
    ∧ is_disposed (runM startReceiving p) = false := by
  refine ⟨rfl, rfl, runM_not_connectOk startReceiving r hr rfl, ?_⟩
  by_contra hdis
  have hd : (runM startReceiving p).disposed = true := by
    simpa [is_disposed] using hdis
  have hInv : Inv (runM startReceiving p) :=
    inv_runM startReceiving p inv_start
  have heq : runM startReceiving (p ++ q) = runM startReceiving p := by
    rw [runM_append, runM_disposed _ q hd]
  rw [heq] at hc
  have := inv_not_connected _ hInv hd
  rw [this] at hc
  exact Bool.false_ne_true hc

/-- Witness for C10: no connect outcome in a singleton receive list,
and a run that connects on its first event. -/
theorem start_unconnected_undisposed_w :
    is_connected startReceiving = false
    ∧ is_disposed startReceiving = false
    ∧ is_connected (runM startReceiving [Input.recvOk 1]) = false
    ∧ is_disposed (runM startReceiving ([] : List Input)) = false :=
  start_unconnected_undisposed ([] : List Input) [Input.connectOk]
    [Input.recvOk 1] (by decide) (by decide)

end Nng
